import Mathlib

/-!
Shallow embedding of the Sparkify data-lake ETL pipeline
(`src/Data-Lake-Project/Datalake_etl.py`).

Rows are typed records, tables are Lean lists, and the engine's relational
operators (filter, select, selectExpr, join, dropDuplicates, withColumn) are
list functions.  Spark timestamps are modelled as microseconds since the Unix
epoch (the resolution of Spark's TimestampType); the schema's DoubleType
payload columns (latitude, longitude, duration) are modelled as integers,
since no property performs arithmetic on them.  Column-name resolution,
which several properties turn on, is modelled separately on schemas given as
lists of column names.
-/

/-! ## Timestamp derivation and calendar functions -/

/-- Embeds `udf(lambda x: datetime.utcfromtimestamp(int(x)/1000), TimestampType())`
(source line 103): the log's integer `ts` field is interpreted as epoch
milliseconds, and `int(x)/1000` is Python true division, so the millisecond
fraction survives into the timestamp.  The resulting instant is modelled at
Spark timestamp resolution as microseconds since the epoch: `ts` ms is
`ts * 1000` µs. -/
def get_datetime (ts : Nat) : Nat := ts * 1000

/-- Whole days since 1970-01-01 of a timestamp given in microseconds. -/
def epochDays (t : Nat) : Nat := t / 1000000 / 86400

/-- Spark's `hour` on a timestamp (UTC), for microseconds since the epoch. -/
def hourUTC (t : Nat) : Nat := t / 1000000 % 86400 / 3600

/-- Civil (proleptic Gregorian) date of a day count since 1970-01-01, as
`(year, month, day)`.  Standard era/day-of-era decomposition; valid for every
day count from 0000-03-01 on, which covers all epoch-based inputs. -/
def civilFromDays (z : Nat) : Nat × Nat × Nat :=
  let zz := z + 719468
  let era := zz / 146097
  let doe := zz % 146097
  let yoe := (doe - doe / 1460 + doe / 36524 - doe / 146096) / 365
  let doy := doe - (365 * yoe + yoe / 4 - yoe / 100)
  let mp := (5 * doy + 2) / 153
  let d := doy - (153 * mp + 2) / 5 + 1
  let m := if mp < 10 then mp + 3 else mp - 9
  (yoe + era * 400 + (if m ≤ 2 then 1 else 0), m, d)

/-- Day count since 1970-01-01 of a civil date (inverse of `civilFromDays`
on the dates this pipeline can see, all at or after 1970-01-01). -/
def daysFromCivil (y m d : Nat) : Nat :=
  let y0 := if m ≤ 2 then y - 1 else y
  let era := y0 / 400
  let yoe := y0 % 400
  let mp := if m > 2 then m - 3 else m + 9
  let doy := (153 * mp + 2) / 5 + d - 1
  era * 146097 + (yoe * 365 + yoe / 4 - yoe / 100 + doy) - 719468

/-- Spark's `year` (UTC) of a timestamp in microseconds since the epoch. -/
def yearUTC (t : Nat) : Nat := (civilFromDays (epochDays t)).1

/-- Spark's `month` (UTC) of a timestamp in microseconds since the epoch. -/
def monthUTC (t : Nat) : Nat := (civilFromDays (epochDays t)).2.1

/-- Spark's `dayofmonth` (UTC) of a timestamp in microseconds since the epoch. -/
def dayOfMonth (t : Nat) : Nat := (civilFromDays (epochDays t)).2.2

/-- ISO weekday (1 = Monday .. 7 = Sunday) of a day count since the epoch;
1970-01-01 was a Thursday. -/
def isoWeekday (z : Nat) : Nat := (z + 3) % 7 + 1

/-- ISO-8601 week number of a day count, via the Thursday of its week:
the ISO week of a date is the ordinal of that Thursday within the
Thursday's own civil year. -/
def isoWeek (z : Nat) : Nat :=
  let thu := z + 4 - isoWeekday z
  (thu - daysFromCivil (civilFromDays thu).1 1 1) / 7 + 1

/-- Spark's `weekofyear` (ISO week, UTC) of a timestamp in microseconds. -/
def weekOfYear (t : Nat) : Nat := isoWeek (epochDays t)

/-- Spark's `dayofweek` (1 = Sunday .. 7 = Saturday, UTC) of a timestamp in
microseconds since the epoch. -/
def weekdayOf (t : Nat) : Nat := (epochDays t + 4) % 7 + 1

/-! ## Input records

The song-catalog record follows the schema declared at source lines 44-55.
The log-event record carries the fields of the producer's event-log contract
that the pipeline reads; the log schema itself is inferred at read time
(source line 90), so its column-name list is modelled separately below as
`logFields`. -/

/-- A song-catalog record (schema of source lines 44-55).  DoubleType
payloads are modelled as integers; no property computes with them. -/
structure SongRecord where
  num_songs : Int
  artist_id : String
  artist_latitude : Int
  artist_longitude : Int
  artist_location : String
  artist_name : String
  song_id : String
  title : String
  duration : Int
  year : Int
deriving DecidableEq

/-- A log-event record, with the fields the pipeline reads. -/
structure LogRow where
  artist : String
  firstName : String
  gender : String
  lastName : String
  level : String
  location : String
  page : String
  sessionId : Nat
  song : String
  ts : Nat
  userAgent : String
  userId : Nat
deriving DecidableEq

/-! ## Dimension-table rows -/

/-- A row of the `songs` table: the projection of source lines 61-62. -/
structure SongsRow where
  song_id : String
  title : String
  artist_id : String
  year : Int
  duration : Int
deriving DecidableEq

/-- A row of the `artists` table (source line 68's intended output shape). -/
structure ArtistRow where
  artist_id : String
  name : String
  location : String
  latitude : Int
  longitude : Int
deriving DecidableEq

/-- A row of the `users` table (source line 96's intended output shape). -/
structure UserRow where
  user_id : Nat
  first_name : String
  last_name : String
  gender : String
  level : String
deriving DecidableEq

/-- A row of the `time` dimension: `start_time` plus the six columns derived
from it at source lines 108-113. -/
structure TimeRow where
  start_time : Nat
  hour : Nat
  day : Nat
  week : Nat
  month : Nat
  year : Nat
  weekday : Nat
deriving DecidableEq

/-- A row of the `songplays` fact table (projection of source lines 128-138). -/
structure FactRow where
  songplay_id : Nat
  start_time : Nat
  user_id : Nat
  level : String
  song_id : String
  artist_id : String
  session_id : Nat
  location : String
  user_agent : String
  year : Nat
  month : Nat
deriving DecidableEq

/-! ## The song-catalog stage (process_song_data) -/

/-- `songs_table = df.select(["song_id","title","artist_id","year","duration"])`
(source lines 61-62); no deduplication is applied. -/
def songs_table (df : List SongRecord) : List SongsRow :=
  df.map fun r => ⟨r.song_id, r.title, r.artist_id, r.year, r.duration⟩

/-- `artists_table = df.selectExpr(art_cols).dropDuplicates()` (source lines
68-69).  Modelled from the spec: the source's selectExpr names the
nonexistent column `artist_lattitude` (a typo; the name-level failure is
settled by `artists_selectExpr_unresolvable`), and the spec's intended
projection `artist_latitude as latitude` is used here.  `dropDuplicates` is
full-row set-semantics deduplication, modelled by `List.dedup`. -/
def artists_table (df : List SongRecord) : List ArtistRow :=
  (df.map fun r =>
    (⟨r.artist_id, r.artist_name, r.artist_location, r.artist_latitude,
      r.artist_longitude⟩ : ArtistRow)).dedup

/-! ## The log stage (process_log_data) -/

/-- `df = df.filter(df.page == 'NextPage')` (source line 93), with the
source's literal sentinel string kept as written. -/
def filterPlays (df : List LogRow) : List LogRow :=
  df.filter fun r => r.page == "NextPage"

/-- `user_table = df.selectExpr(user_cols).dropDuplicates()` (source lines
96-97).  Modelled from the spec: the source's selectExpr names the
nonexistent log field `userdId` (a typo; the name-level failure is settled
by `users_selectExpr_unresolvable`), and the spec's intended rename
`userId as user_id` is used here. -/
def users_table (df : List LogRow) : List UserRow :=
  (df.map fun r =>
    (⟨r.userId, r.firstName, r.lastName, r.gender, r.level⟩ : UserRow)).dedup

/-- A log row augmented with the derived `start_time` column:
`df.withColumn("start_time", get_datetime("ts"))` (source line 104). -/
structure LogRowTs where
  row : LogRow
  start_time : Nat
deriving DecidableEq

/-- The timestamp-augmented event stream of source line 104. -/
def logWithTime (df : List LogRow) : List LogRowTs :=
  df.map fun r => ⟨r, get_datetime r.ts⟩

/-- The six derived columns of the `time` dimension, as a function of the
deduplicated `start_time` value (source lines 108-113). -/
def mkTimeRow (t : Nat) : TimeRow :=
  ⟨t, hourUTC t, dayOfMonth t, weekOfYear t, monthUTC t, yearUTC t, weekdayOf t⟩

/-- `time_table = df.select("start_time").dropDuplicates().withColumn(...)...`
(source lines 107-113).  Modelled from the spec: the source chain ends in a
malformed empty column selection, `.select("")`, which the spec's design
note directs an implementer to read as "all seven derived columns retained,
no extra narrowing"; the name-level failure of the literal chain is settled
by `time_table_final_select_fails`. -/
def time_table (df : List LogRowTs) : List TimeRow :=
  ((df.map fun r => r.start_time).dedup).map mkTimeRow

/-! ## The fact build (source lines 125-138) -/

/-- An inner equality join of two tables on a Boolean predicate, keeping the
left table's row order and, per left row, the right table's row order. -/
def joinOn {α β : Type} (p : α → β → Bool) (xs : List α) (ys : List β) :
    List (α × β) :=
  xs.flatMap fun x => (ys.filter fun y => p x y).map fun y => (x, y)

/-- The three sequential inner joins of source lines 125-127:
log stream with `songs` on `df.song == df_songs.title` (the song-side `year`
is dropped, which the typed fact projection below reflects by never reading
it), the result with `artists` on `log_songs.artist == df_artists.name`, and
that result with the `time` dimension on equal `start_time`. -/
def songplaysJoined (df : List LogRowTs) (songsT : List SongsRow)
    (artistsT : List ArtistRow) (timeT : List TimeRow) :
    List (((LogRowTs × SongsRow) × ArtistRow) × TimeRow) :=
  joinOn (fun la t => la.1.1.start_time == t.start_time)
    (joinOn (fun ls a => ls.1.row.artist == a.name)
      (joinOn (fun l s => l.row.song == s.title) df songsT)
      artistsT)
    timeT

/-- The fact projection of source lines 128-138: a joined row, tagged with
its ordinal in the final result set, becomes a `songplays` row.  The
surrogate `songplay_id` generator (`monotonically_increasing_id`) is an
engine primitive; it is modelled from the spec as the row-ordinal of the
final result set. -/
def mkFact : Nat × (((LogRowTs × SongsRow) × ArtistRow) × TimeRow) → FactRow
  | (i, (((l, s), a), t)) =>
    ⟨i, l.start_time, l.row.userId, l.row.level, s.song_id, a.artist_id,
     l.row.sessionId, l.row.location, l.row.userAgent, t.year, t.month⟩

/-- The `songplays` table built from the four input tables. -/
def songplays_of (df : List LogRowTs) (songsT : List SongsRow)
    (artistsT : List ArtistRow) (timeT : List TimeRow) : List FactRow :=
  ((songplaysJoined df songsT artistsT timeT).enum).map mkFact

/-- End-to-end `songplays` pipeline: the filtered, timestamp-augmented log
stream joined against the `songs`, `artists` and `time` tables the same run
produced (source: `process_song_data` then `process_log_data`). -/
def songplays_table (logs : List LogRow) (songs : List SongRecord) :
    List FactRow :=
  songplays_of (logWithTime (filterPlays logs)) (songs_table songs)
    (artists_table songs) (time_table (logWithTime (filterPlays logs)))

/-! ## Column-name resolution

Spark resolves every column name a `select`/`selectExpr` mentions against
the input schema and rejects the query when a name does not resolve.  The
schema level of that analysis is modelled here on column-name lists. -/

/-- Column names of the declared song-catalog schema (source lines 44-55). -/
def songSchemaFields : List String :=
  ["num_songs", "artist_id", "artist_latitude", "artist_longitude",
   "artist_location", "artist_name", "song_id", "title", "duration", "year"]

/-- The selectExpr items of source line 68, as (source column, alias) pairs. -/
def art_cols : List (String × String) :=
  [("artist_id", "artist_id"), ("artist_name", "name"),
   ("artist_location", "location"), ("artist_lattitude", "lattitude"),
   ("artist_longitude", "longitude")]

/-- Column names of a log event.  Modelled from the spec: the log schema is
inferred from the data at source line 90 (no declaration in the source), and
these are the field names of the producer's event-log contract the spec
refers to (userId, firstName, lastName, gender, level, page, ts, ...). -/
def logFields : List String :=
  ["artist", "auth", "firstName", "gender", "itemInSession", "lastName",
   "length", "level", "location", "method", "page", "registration",
   "sessionId", "song", "status", "ts", "userAgent", "userId"]

/-- The selectExpr items of source line 96, as (source column, alias) pairs. -/
def user_cols : List (String × String) :=
  [("userdId", "user_id"), ("firstName", "first_name"),
   ("lastName", "last_name"), ("gender", "gender"), ("level", "level")]

/-- Schema analysis of `selectExpr`: every referenced source column must be
a column of the input schema; on success the output schema is the alias
list, otherwise the query is rejected. -/
def selectExprSchema (schema : List String) (exprs : List (String × String)) :
    Option (List String) :=
  if exprs.all fun e => schema.contains e.1 then some (exprs.map fun e => e.2)
  else none

/-- Schema analysis of `select` by plain column names. -/
def selectSchema (schema : List String) (names : List String) :
    Option (List String) :=
  if names.all fun n => schema.contains n then some names else none

/-- Schema effect of `withColumn`: the named column is appended when new. -/
def withColumnSchema (schema : List String) (n : String) : List String :=
  if schema.contains n then schema else schema ++ [n]

/-- The schema of the time-table chain of source lines 107-113 right before
its final selection: `select("start_time").dropDuplicates()` followed by the
six `withColumn` derivations. -/
def timeTableColsBeforeSelect : List String :=
  List.foldl withColumnSchema ["start_time"]
    ["hour", "day", "week", "month", "year", "weekday"]

/-- Schema analysis of the full time-table chain of source lines 107-114,
including the final `.select("")`. -/
def timeTableCodeSchema : Option (List String) :=
  (selectSchema (withColumnSchema logFields "start_time") ["start_time"]).bind
    fun s =>
      selectSchema
        (List.foldl withColumnSchema s
          ["hour", "day", "week", "month", "year", "weekday"]) [""]

/-! ## Write modes (the five writes of the pipeline) -/

/-- The save mode of a Spark parquet write: the engine default rejects a
write to an existing location, `overwrite` replaces it. -/
inductive SaveMode
  | errorIfExists
  | overwrite
deriving DecidableEq

/-- One durable table write: output path, partition columns, save mode. -/
structure WriteSpec where
  path : String
  partitionCols : List String
  mode : SaveMode
deriving DecidableEq

/-- The five writes of one pipeline run, in program order.  Only the `time`
write (source line 117) passes `mode='overwrite'`; the writes at source
lines 65, 72, 100 and 141 pass no mode and get the engine default. -/
def pipelineWrites : List WriteSpec :=
  [⟨"songs/", ["year", "artist_id"], SaveMode.errorIfExists⟩,
   ⟨"artists/", [], SaveMode.errorIfExists⟩,
   ⟨"users/", [], SaveMode.errorIfExists⟩,
   ⟨"time/", ["year", "month"], SaveMode.overwrite⟩,
   ⟨"songplays/", ["year", "month"], SaveMode.errorIfExists⟩]

/-- One write against the set of already-existing output locations: it fails
when the location exists and the mode is not `overwrite`. -/
def doWrite (store : List String) (w : WriteSpec) : Option (List String) :=
  match w.mode with
  | SaveMode.overwrite =>
      some (if store.contains w.path then store else store ++ [w.path])
  | SaveMode.errorIfExists =>
      if store.contains w.path then none else some (store ++ [w.path])

/-- One full pipeline run's write sequence over an output root that already
holds `store`; `none` when some write is rejected. -/
def runWrites (store : List String) : Option (List String) :=
  pipelineWrites.foldlM doWrite store

/-! ## Concrete inputs -/

/-- Scenario B's playback event: `page="NextSong"`, `userId=10`,
`ts=1541121934796`. -/
def scenarioB1 : LogRow :=
  ⟨"ArtX", "Sara", "F", "Johnson", "free", "Loc1", "NextSong", 152, "SongX",
   1541121934796, "UA1", 10⟩

/-- Scenario B's navigation event, `page="Help"`. -/
def scenarioB2 : LogRow :=
  ⟨"ArtY", "Bob", "M", "Smith", "paid", "Loc2", "Help", 153, "SongY",
   1541122000000, "UA2", 11⟩

/-- A log event whose `page` is the source's literal sentinel `"NextPage"`,
otherwise identical to Scenario B's playback event. -/
def logW : LogRow :=
  ⟨"ArtX", "Sara", "F", "Johnson", "free", "Loc1", "NextPage", 152, "SongX",
   1541121934796, "UA1", 10⟩

/-- A catalog record matching `logW`'s song title and artist name. -/
def songW : SongRecord :=
  ⟨1, "AR1", 36, -86, "LocA", "ArtX", "SO1", "SongX", 200, 2018⟩

/-- The single fact row the pipeline produces from `[logW]` and `[songW]`. -/
def factW : FactRow :=
  ⟨0, 1541121934796000, 10, "free", "SO1", "AR1", 152, "Loc1", "UA1", 2018, 11⟩

/-! ## Helper lemmas -/

/-- Membership in an inner join: a pair is in `joinOn p xs ys` exactly when
its components are members of the respective tables and the join predicate
holds of them. -/
theorem mem_joinOn {α β : Type} {p : α → β → Bool} {xs : List α}
    {ys : List β} {x : α} {y : β} :
    (x, y) ∈ joinOn p xs ys ↔ x ∈ xs ∧ y ∈ ys ∧ p x y = true := by
  constructor
  · intro h
    obtain ⟨x1, hx1, hmem⟩ := List.mem_flatMap.mp h
    obtain ⟨y1, hy1, heq⟩ := List.mem_map.mp hmem
    obtain ⟨hy, hp⟩ := List.mem_filter.mp hy1
    obtain ⟨h1, h2⟩ := Prod.mk.injEq .. ▸ heq
    subst h1; subst h2
    exact ⟨hx1, hy, hp⟩
  · intro ⟨hx, hy, hp⟩
    exact List.mem_flatMap.mpr
      ⟨x, hx, List.mem_map.mpr ⟨y, List.mem_filter.mpr ⟨hy, hp⟩, rfl⟩⟩

/-- A component of an enumerated list is a member of the list. -/
theorem mem_of_mem_enum {α : Type} {l : List α} {i : Nat} {a : α}
    (h : (i, a) ∈ l.enum) : a ∈ l := by
  have := List.mem_map_of_mem Prod.snd h
  rwa [List.enum_map_snd] at this

/-! ## Claim theorems -/

/-- Claim C1 (code_bug evidence): the filter of source line 93 compares
`page` with the literal `'NextPage'`, not with the playback sentinel
`NextSong`.  Scenario B's playback event (`page="NextSong"`, `userId=10`,
`ts=1541121934796`) is therefore dropped and contributes to none of the
`users`, `time` or `songplays` tables, even with a matching catalog record
present, while an event carrying the page value `"NextPage"` does pass the
filter. -/
theorem nextSong_event_never_contributes :
    scenarioB1.page = "NextSong" ∧
    filterPlays [scenarioB1, scenarioB2] = [] ∧
    users_table (filterPlays [scenarioB1, scenarioB2]) = [] ∧
    time_table (logWithTime (filterPlays [scenarioB1, scenarioB2])) = [] ∧
    songplays_table [scenarioB1, scenarioB2] [songW] = [] ∧
    logW.page = "NextPage" ∧ filterPlays [logW] = [logW] := by
  decide

/-- Claim C2 (code_bug evidence): after `select("start_time")`,
`dropDuplicates()` and the six `withColumn` derivations, the time-table
chain of source lines 107-114 has exactly the seven derived columns, but its
final `.select("")` names no column of that schema, so the literal chain is
rejected instead of retaining the seven columns. -/
theorem time_table_final_select_fails :
    timeTableColsBeforeSelect =
      ["start_time", "hour", "day", "week", "month", "year", "weekday"] ∧
    selectSchema timeTableColsBeforeSelect [""] = none ∧
    timeTableCodeSchema = none := by
  decide

/-- Claim C3 (counterexample): for the literal input timestamp
`1541121934796` ms, the derived start_time has UTC hour 1, not 9, and its
millisecond fraction (796 ms = 796000 µs) is retained, not discarded. -/
theorem timestamp_hour_ne_nine :
    hourUTC (get_datetime 1541121934796) = 1 ∧
    hourUTC (get_datetime 1541121934796) ≠ 9 ∧
    get_datetime 1541121934796 % 1000000 ≠ 0 := by
  decide

/-- Claim C3 (amended): `start_time` interprets `ts` as epoch milliseconds
with the millisecond fraction retained — the derived instant is `ts` ms =
`ts * 1000` µs, so its UTC hour is that of `ts / 1000` whole seconds — and
for the literal `ts = 1541121934796` the derived time is 1541121934.796
seconds since the epoch with UTC hour 1. -/
theorem timestamp_derivation_millis_retained :
    (∀ ts : Nat, hourUTC (get_datetime ts) = ts / 1000 % 86400 / 3600) ∧
    get_datetime 1541121934796 / 1000000 = 1541121934 ∧
    get_datetime 1541121934796 % 1000000 = 796000 ∧
    hourUTC (get_datetime 1541121934796) = 1 := by
  refine ⟨fun ts => ?_, by decide, by decide, by decide⟩
  have h : ts * 1000 / 1000000 = ts / 1000 := by
    rw [show (1000000 : Nat) = 1000 * 1000 from rfl,
      ← Nat.div_div_eq_div_mul, Nat.mul_div_cancel _ (by norm_num)]
  simp [hourUTC, get_datetime, h]

/-- Claim C4 (code_bug evidence): the selectExpr of source line 68 names the
column `artist_lattitude`, which is not a column of the declared song
schema (the schema has `artist_latitude`), so the artists projection is
rejected for every input rather than producing the five renamed columns. -/
theorem artists_selectExpr_unresolvable :
    songSchemaFields.contains "artist_latitude" = true ∧
    songSchemaFields.contains "artist_lattitude" = false ∧
    selectExprSchema songSchemaFields art_cols = none := by
  decide

/-- Claim C5 (code_bug evidence): the selectExpr of source line 96 names the
field `userdId`, which is not a field of the log events (the producer's
contract has `userId`), so the users projection is rejected for every input
rather than producing the five renamed columns. -/
theorem users_selectExpr_unresolvable :
    logFields.contains "userId" = true ∧
    logFields.contains "userdId" = false ∧
    selectExprSchema logFields user_cols = none := by
  decide

/-- Claim C8 (counterexample): not every output table is written with
overwrite semantics — only the `time` write passes `mode='overwrite'` — and
rerunning the write sequence over the output locations a first run produced
fails (at the `songs` write) instead of succeeding. -/
theorem rerun_not_all_overwrite :
    ¬ (∀ w ∈ pipelineWrites, w.mode = SaveMode.overwrite) ∧
    runWrites [] =
      some ["songs/", "artists/", "users/", "time/", "songplays/"] ∧
    (runWrites []).bind runWrites = none := by
  decide

/-- Claim C8 (amended): only the `time` table's write uses overwrite mode
(source line 117); the writes of `songs`, `artists`, `users` and
`songplays` (source lines 65, 72, 100, 141) pass no mode and get the engine
default, which rejects an existing location, so a second run over the same
output root fails at its first write instead of rebuilding the outputs. -/
theorem overwrite_only_time_rerun_fails :
    (pipelineWrites.filter fun w => w.mode == SaveMode.overwrite).map
      WriteSpec.path = ["time/"] ∧
    ((pipelineWrites.filter fun w => w.mode == SaveMode.errorIfExists).map
      WriteSpec.path = ["songs/", "artists/", "users/", "songplays/"]) ∧
    doWrite ["songs/", "artists/", "users/", "time/", "songplays/"]
      ⟨"songs/", ["year", "artist_id"], SaveMode.errorIfExists⟩ = none ∧
    (runWrites []).bind runWrites = none := by
  decide

/-- Claim C6: referential soundness of the three inner joins (source lines
125-138).  Every `songplays` row takes its `song_id` from some row of the
`songs` table, its `artist_id` from some row of the `artists` table, and its
`start_time` equals the `start_time` of some row of the `time` dimension. -/
theorem songplays_referential_soundness (logs : List LogRow)
    (songs : List SongRecord) (row : FactRow)
    (hrow : row ∈ songplays_table logs songs) :
    (∃ s ∈ songs_table songs, row.song_id = s.song_id) ∧
    (∃ a ∈ artists_table songs, row.artist_id = a.artist_id) ∧
    (∃ t ∈ time_table (logWithTime (filterPlays logs)),
      row.start_time = t.start_time) := by
  simp only [songplays_table, songplays_of] at hrow
  obtain ⟨ix, hix, hmk⟩ := List.mem_map.mp hrow
  obtain ⟨i, x⟩ := ix
  have hx := mem_of_mem_enum hix
  obtain ⟨⟨⟨l, s⟩, a⟩, t⟩ := x
  obtain ⟨hy3, htmem, hpt⟩ := mem_joinOn.mp hx
  obtain ⟨hy2, hamem, hpa⟩ := mem_joinOn.mp hy3
  obtain ⟨hlmem, hsmem, hps⟩ := mem_joinOn.mp hy2
  subst hmk
  refine ⟨⟨s, hsmem, rfl⟩, ⟨a, hamem, rfl⟩, ⟨t, htmem, ?_⟩⟩
  show l.start_time = t.start_time
  simpa using hpt

/-- Claim C6 (witness): the fact row built from `logW` and `songW`
references existing `songs`, `artists` and `time` rows. -/
theorem songplays_referential_soundness_witness :
    (∃ s ∈ songs_table [songW], factW.song_id = s.song_id) ∧
    (∃ a ∈ artists_table [songW], factW.artist_id = a.artist_id) ∧
    (∃ t ∈ time_table (logWithTime (filterPlays [logW])),
      factW.start_time = t.start_time) :=
  songplays_referential_soundness [logW] [songW] factW (by decide)

/-- Claim C7: after the pipeline's deduplication steps, no two rows of the
`users`, `artists` or `time` tables are identical across all columns; for
`time` this holds because `start_time` is deduplicated first and the other
six columns are functions of it. -/
theorem dimension_tables_nodup (logs : List LogRow)
    (songs : List SongRecord) :
    (users_table (filterPlays logs)).Nodup ∧
    (artists_table songs).Nodup ∧
    (time_table (logWithTime (filterPlays logs))).Nodup := by
  refine ⟨List.nodup_dedup _, List.nodup_dedup _, ?_⟩
  have hinj : Function.Injective mkTimeRow := fun a b h =>
    congrArg TimeRow.start_time h
  exact List.Nodup.map hinj (List.nodup_dedup _)

/-- Claim C9: the surrogate `songplay_id` values over the final joined
result set are the row ordinals of that set, hence pairwise distinct and
strictly increasing in the result's row order. -/
theorem songplay_ids_distinct_increasing (logs : List LogRow)
    (songs : List SongRecord) :
    ((songplays_table logs songs).map FactRow.songplay_id).Pairwise
      (fun i j => i < j) ∧
    ((songplays_table logs songs).map FactRow.songplay_id).Nodup := by
  have hcomp : FactRow.songplay_id ∘ mkFact = Prod.fst := by
    funext x
    obtain ⟨i, ⟨⟨l, s⟩, a⟩, t⟩ := x
    rfl
  have h : (songplays_table logs songs).map FactRow.songplay_id =
      List.range (songplaysJoined (logWithTime (filterPlays logs))
        (songs_table songs) (artists_table songs)
        (time_table (logWithTime (filterPlays logs)))).length := by
    simp only [songplays_table, songplays_of, List.map_map, hcomp,
      List.enum_map_fst]
  rw [h]
  exact ⟨List.pairwise_lt_range _, List.nodup_range _⟩

/-- Claim C10: every `songplays` row carries the `year` and `month` of its
joined time-dimension row, i.e. the calendar year and month of the row's own
derived `start_time`; the song catalog's `year` was dropped at the first
join and never reaches the fact projection. -/
theorem fact_year_month_from_start_time (logs : List LogRow)
    (songs : List SongRecord) (row : FactRow)
    (hrow : row ∈ songplays_table logs songs) :
    row.year = yearUTC row.start_time ∧
    row.month = monthUTC row.start_time := by
  simp only [songplays_table, songplays_of] at hrow
  obtain ⟨ix, hix, hmk⟩ := List.mem_map.mp hrow
  obtain ⟨i, x⟩ := ix
  have hx := mem_of_mem_enum hix
  obtain ⟨⟨⟨l, s⟩, a⟩, t⟩ := x
  obtain ⟨hy3, htmem, hpt⟩ := mem_joinOn.mp hx
  simp only [time_table] at htmem
  obtain ⟨u, hu, hmt⟩ := List.mem_map.mp htmem
  subst hmt
  have hl : l.start_time = u := by simpa using hpt
  subst hmk
  constructor
  · show (mkTimeRow u).year = yearUTC l.start_time
    rw [hl]
    rfl
  · show (mkTimeRow u).month = monthUTC l.start_time
    rw [hl]
    rfl

/-- Claim C10 (witness): the fact row built from `logW` and `songW` has
`year = 2018` and `month = 11`, the calendar year and month of its derived
`start_time`. -/
theorem fact_year_month_witness :
    factW.year = yearUTC factW.start_time ∧
    factW.month = monthUTC factW.start_time :=
  fact_year_month_from_start_time [logW] [songW] factW (by decide)
